import Mathlib

/-!
Verification of `examples/docqa/extract-then-chat.py`: a three-agent
demonstration script (Assistant, Extractor, document-answering agent) built on
the langroid orchestration library.  The script's own logic is shallowly
embedded below: the two data schemas (`BookInfo`, `BookInfoTool`), the two
locally authored handler methods (`BookInfoTool.handle`,
`Assistant.book_info`, `Extractor.handle_message_fallback`), and the
configuration literals of the `chat` entry point (CLI defaults, vector-store
configuration, task wiring).

Python built-ins used by the script (`str` of a list of pydantic models,
`str.replace` with one-character patterns, f-string interpolation) are
embedded as executable Lean functions on `String` = lists of characters.
`repr` of a Python string is modelled for the printable range: quote-character
selection as CPython does it, escaping of the backslash, the chosen quote,
newline, tab and carriage return; escaping of other non-printable code points
is out of scope (no claim touches them).
-/

namespace ExtractThenChat

/-- Modelled from the spec: the terminal "task is done" sentinel marker,
imported by the script from the orchestration library's constants module
(which is not under src/).  The spec describes it only as a terminal
signaling marker; its concrete text is a fixed brace-free token. -/
def DONE : String := "DONE:"

/-- Modelled from the spec: the "forward the payload unchanged to the parent"
sentinel marker, imported from the orchestration library's constants module
(not under src/).  A fixed brace-free token. -/
def PASS : String := "__PASS__"

/-- Modelled from the spec: the routing sentinel marker prefix, imported from
the orchestration library's constants module (not under src/); the script
appends the addressee name (here "LLM") directly after it.  A fixed
brace-free token. -/
def SEND_TO : String := "SEND:"

/-- Modelled from the spec: the built-in default chat model identifier
(`lm.OpenAIChatModel.GPT4_TURBO` in the orchestration library, not under
src/), selected when the CLI model override is the empty string. -/
def GPT4_TURBO : String := "gpt-4-turbo"

/-- The `BookInfo` pydantic record of the script: title (text), author
(text), publication year (integer). -/
structure BookInfo where
  title : String
  author : String
  year : Int
deriving DecidableEq

/-- The `BookInfoTool` tool message: the request discriminator and purpose
string literals of the source, and the payload `info`, a list of book
records. -/
structure BookInfoTool where
  request : String := "book_info"
  purpose : String := "Collect <info> about Books"
  info : List BookInfo
deriving DecidableEq

/-- `BookInfoTool.handle`: the tool's handler.  Source:
`return DONE + " " + PASS` — it ignores the payload entirely. -/
def BookInfoTool.handle ( _self : BookInfoTool) : String :=
  DONE ++ " " ++ PASS

/-- The example tool instance constructed in `BookInfoTool.examples()`, with
the two concrete book records of the source. -/
def exampleBookInfoTool : BookInfoTool :=
  ⟨"book_info", "Collect <info> about Books",
    [⟨"The Hobbit", "J.R.R. Tolkien", 1937⟩,
     ⟨"The Great Gatsby", "F. Scott Fitzgerald", 1925⟩]⟩

/-- `BookInfoTool.examples()`: the one example tool instance given in the
source. -/
def BookInfoTool.examples : List BookInfoTool :=
  [exampleBookInfoTool]

/-- A payload whose single record carries curly braces inside its title and
author fields, used to exercise the brace substitution. -/
def braceExampleTool : BookInfoTool :=
  ⟨"book_info", "Collect <info> about Books",
    [⟨"The \x7bHobbit\x7d", "J.R.R. \x7bTolkien\x7d", 1937⟩]⟩

/-- One character of CPython's `repr` of a string, given the chosen quote
character `q`: backslash and the quote are backslash-escaped, newline, tab
and carriage return become their two-character escapes, every other
(printable) character stands for itself. -/
def pyEscChar (q c : Char) : List Char :=
  if c = '\\' then ['\\', '\\']
  else if c = q then ['\\', q]
  else if c = '\n' then ['\\', 'n']
  else if c = '\t' then ['\\', 't']
  else if c = '\r' then ['\\', 'r']
  else [c]

/-- CPython's quote choice for `repr` of a string: a single quote, unless the
string contains a single quote but no double quote, in which case a double
quote. -/
def pyQuoteChar (s : String) : Char :=
  if s.data.contains '\'' && !(s.data.contains '"') then '"' else '\''

/-- CPython's `repr` of a string (printable range): the chosen quote, the
escaped characters, the closing quote. -/
def pyReprStr (s : String) : String :=
  let q := pyQuoteChar s
  ⟨q :: (s.data.map (pyEscChar q)).flatten ++ [q]⟩

/-- `repr` of one pydantic `BookInfo` instance, as produced inside
`str(msg.info)`: `BookInfo(title=..., author=..., year=...)` with `repr` of
each field value. -/
def pyReprBook (b : BookInfo) : String :=
  "BookInfo(title=" ++ pyReprStr b.title ++ ", author=" ++ pyReprStr b.author
    ++ ", year=" ++ toString b.year ++ ")"

/-- Python's `", ".join`: the separator between consecutive elements. -/
def pyJoin (sep : String) : List String → String
  | [] => ""
  | [x] => x
  | x :: y :: xs => x ++ sep ++ pyJoin sep (y :: xs)

/-- Python's `str` of a list of `BookInfo` records: bracketed, comma-space
separated `repr`s of the elements. -/
def pyStrBookList (l : List BookInfo) : String :=
  "[" ++ pyJoin ", " (l.map pyReprBook) ++ "]"

/-- Python's `str.replace` specialised to a one-character pattern and a
one-character replacement: a character map over the string. -/
def replace1 (a b : Char) (s : String) : String :=
  ⟨s.data.map fun c => if c = a then b else c⟩

/-- The script's brace substitution, in source order:
`.replace("{", "[")` then `.replace("}", "]")`. -/
def braceSub (s : String) : String :=
  replace1 '\x7d' ']' (replace1 '\x7b' '[' s)

/-- The fixed text of the f-string template in `Assistant.book_info` between
the `SEND_TO` marker interpolation and the `info_str` interpolation,
whitespace exactly as in the source. -/
def assistantMidText : String :=
  "LLM\n        Below is INFO about various books, you received from the Extractor.\n        Now ask the user what help they need, and respond ONLY based on this INFO.\n        \n        INFO: \n        "

/-- The fixed text of the f-string template after the `info_str`
interpolation. -/
def assistantTailText : String :=
  " \n        "

/-- `Assistant.book_info`: converts the payload to its non-JSON string form
(`str(msg.info)` with curly braces replaced by square brackets) and embeds it
in the routing template addressed to the Assistant's own LLM. -/
def Assistant.book_info (msg : BookInfoTool) : String :=
  let info_str := braceSub (pyStrBookList msg.info)
  SEND_TO ++ assistantMidText ++ info_str ++ assistantTailText

/-- The fixed corrective nudge string returned by
`Extractor.handle_message_fallback`, whitespace exactly as in the source. -/
def nudgeText : String :=
  "\n            You must use the \"book_info\" tool to present the info.\n            You either forgot to use it, or you used it with the wrong format.\n            Make sure all fields are filled out and pay attention to the \n            required types of the fields.\n            "

/-- `Extractor.handle_message_fallback`, with the agent's state passed
explicitly (the Python method's `self`, of an arbitrary state type `σ`) and
the result of the external library's `has_tool_message_attempt(msg)` check
(library code not under src/, so modelled as the boolean it returns).  The
method returns the nudge when the check holds and falls off the end
(Python `None`) otherwise, and never writes to `self`: the state component
of the result is the input state. -/
def Extractor.handle_message_fallback (σ : Type) (st : σ)
    (hasToolMessageAttempt : Bool) : Option String × σ :=
  (if hasToolMessageAttempt then some nudgeText else none, st)

/-- The global `Settings` fields the script sets in `set_global`. -/
structure Settings where
  debug : Bool
  cache : Bool
deriving DecidableEq

/-- The CLI options of the `chat` entry point with their source defaults:
`model: str = ""`, `debug: bool = False`, `no_cache: bool = False`. -/
structure ChatOptions where
  model : String := ""
  debug : Bool := false
  no_cache : Bool := false
deriving DecidableEq

/-- The `Settings` the script passes to `set_global`:
`Settings(debug=debug, cache=not no_cache)`. -/
def chatSettings (o : ChatOptions) : Settings :=
  ⟨o.debug, !o.no_cache⟩

/-- The chat model selected by the script:
`model or lm.OpenAIChatModel.GPT4_TURBO`, where Python's `or` yields the
default exactly when the override string is empty (falsy). -/
def chatModel (o : ChatOptions) : String :=
  if o.model = "" then GPT4_TURBO else o.model

/-- The vector-store configuration literal passed to the document agent. -/
structure LanceDBConfig where
  collection_name : String
  replace_collection : Bool
  storage_path : String
  embedding_model_name : String
deriving DecidableEq

/-- The `LanceDBConfig` literal of the script. -/
def bookVecdbConfig : LanceDBConfig :=
  ⟨"book_info", true, ".lancedb/data/", "BAAI/bge-large-en-v1.5"⟩

/-- The three tasks the script instantiates. -/
inductive TaskName
  | Assistant
  | Extractor
  | DocAgent
deriving DecidableEq, BEq

/-- The parent→child sub-task edges declared by the script:
`assistant_task.add_sub_task([extractor_task])` and
`extractor_task.add_sub_task([doc_task])`. -/
def subTaskEdges : List (TaskName × TaskName) :=
  [(TaskName.Assistant, TaskName.Extractor),
   (TaskName.Extractor, TaskName.DocAgent)]

/-- The parent of a task under the declared edges, if any. -/
def parentOf (t : TaskName) : Option TaskName :=
  (subTaskEdges.find? fun e => e.2 == t).map fun e => e.1

/-- The task on which the script calls the run entry point:
`assistant_task.run()`. -/
def rootTask : TaskName := TaskName.Assistant

/-- Whether the script uses the blocking `run()` entry point (it does; the
source comments that `run_async` cannot be used because the document agent
has no async LLM method). -/
def usesBlockingRun : Bool := true

/-- `t` occurs (as a contiguous run of characters) inside `s`. -/
abbrev occursIn (t s : String) : Prop := t.data <:+: s.data

/-- `s` starts with the characters of `p`. -/
abbrev beginsWith (p s : String) : Prop := p.data <+: s.data

/-- `s` contains no curly-brace character. -/
abbrev noBraces (s : String) : Prop :=
  '\x7b' ∉ s.data ∧ '\x7d' ∉ s.data

/-- Characters that CPython's `repr` of a string prints verbatim inside
single quotes and that the brace substitution leaves unchanged: not a
backslash, not a quote of either kind, not an escaped control character,
not a curly brace. -/
def plainChar (c : Char) : Bool :=
  !(c = '\\' || c = '\'' || c = '"' || c = '\n' || c = '\t' || c = '\r'
    || c = '\x7b' || c = '\x7d')

/-- The single character map realised by the two successive one-character
replacements of the script's brace substitution. -/
def braceMap (c : Char) : Char :=
  if c = '\x7b' then '[' else if c = '\x7d' then ']' else c

lemma braceSub_data (s : String) :
    (braceSub s).data = s.data.map braceMap := by
  show (s.data.map _).map _ = _
  rw [List.map_map]
  refine List.map_congr_left fun c _ => ?_
  by_cases h1 : c = '\x7b'
  · subst h1; decide
  · by_cases h2 : c = '\x7d'
    · subst h2; decide
    · simp [Function.comp, h1, h2, braceMap]

lemma braceMap_ne_lbrace (c : Char) : braceMap c ≠ '\x7b' := by
  unfold braceMap
  by_cases h1 : c = '\x7b'
  · simp [h1]
  · by_cases h2 : c = '\x7d' <;> simp [h1, h2]

lemma braceMap_ne_rbrace (c : Char) : braceMap c ≠ '\x7d' := by
  unfold braceMap
  by_cases h1 : c = '\x7b'
  · simp [h1]
  · by_cases h2 : c = '\x7d' <;> simp [h1, h2]

lemma braceMap_fix {c : Char} (h1 : c ≠ '\x7b') (h2 : c ≠ '\x7d') :
    braceMap c = c := by
  simp [braceMap, h1, h2]

lemma noBraces_braceSub (s : String) : noBraces (braceSub s) := by
  rw [noBraces, braceSub_data]
  constructor <;>
    · intro hmem
      obtain ⟨c, -, hc⟩ := List.mem_map.1 hmem
      first
        | exact braceMap_ne_lbrace c hc
        | exact braceMap_ne_rbrace c hc

lemma noBraces_append {s t : String} (hs : noBraces s) (ht : noBraces t) :
    noBraces (s ++ t) := by
  rw [noBraces, String.data_append]
  constructor <;>
    · rw [List.mem_append]
      rintro (h | h)
      · first
          | exact hs.1 h
          | exact hs.2 h
      · first
          | exact ht.1 h
          | exact ht.2 h

lemma braceSub_data_id {s : String} (h : noBraces s) :
    (braceSub s).data = s.data := by
  rw [braceSub_data]
  have : ∀ c ∈ s.data, braceMap c = c := fun c hc =>
    braceMap_fix (fun e => h.1 (e ▸ hc)) (fun e => h.2 (e ▸ hc))
  rw [List.map_congr_left this]
  simp

lemma occExtendLeft {l m p : List Char} (h : l <:+: m) : l <:+: p ++ m := by
  obtain ⟨s, t, rfl⟩ := h
  exact ⟨p ++ s, t, by simp⟩

lemma occExtendRight {l m r : List Char} (h : l <:+: m) : l <:+: m ++ r := by
  obtain ⟨s, t, rfl⟩ := h
  exact ⟨s, t ++ r, by simp⟩

lemma prefExtendLeft (x : List Char) {p m : List Char} (h : p <+: m) :
    x ++ p <+: x ++ m := by
  obtain ⟨t, rfl⟩ := h
  exact ⟨t, by simp⟩

lemma prefExtendRight (r : List Char) {p m : List Char} (h : p <+: m) :
    p <+: m ++ r := by
  obtain ⟨t, rfl⟩ := h
  exact ⟨t ++ r, by simp⟩

lemma occ_pyJoin_of_mem (sep : String) (xs : List String) (x : String)
    (hx : x ∈ xs) : x.data <:+: (pyJoin sep xs).data := by
  induction xs with
  | nil => cases hx
  | cons y ys ih =>
    cases ys with
    | nil =>
      obtain rfl : x = y := List.mem_singleton.1 hx
      exact ⟨[], [], by simp [pyJoin]⟩
    | cons z zs =>
      rcases List.mem_cons.1 hx with rfl | hx'
      · show x.data <:+: (x ++ sep ++ pyJoin sep (z :: zs)).data
        rw [String.data_append, String.data_append]
        exact ⟨[], sep.data ++ (pyJoin sep (z :: zs)).data, by simp⟩
      · have h := ih hx'
        show x.data <:+: (y ++ sep ++ pyJoin sep (z :: zs)).data
        rw [String.data_append, String.data_append]
        exact occExtendLeft h

lemma occ_title_pyReprBook (b : BookInfo) :
    (pyReprStr b.title).data <:+: (pyReprBook b).data := by
  refine ⟨"BookInfo(title=".data,
    (", author=" ++ pyReprStr b.author ++ ", year=" ++ toString b.year
      ++ ")").data, ?_⟩
  simp [pyReprBook, String.data_append]

lemma occ_author_pyReprBook (b : BookInfo) :
    (pyReprStr b.author).data <:+: (pyReprBook b).data := by
  refine ⟨("BookInfo(title=" ++ pyReprStr b.title ++ ", author=").data,
    (", year=" ++ toString b.year ++ ")").data, ?_⟩
  simp [pyReprBook, String.data_append]

lemma occ_year_pyReprBook (b : BookInfo) :
    (toString b.year).data <:+: (pyReprBook b).data := by
  refine ⟨("BookInfo(title=" ++ pyReprStr b.title ++ ", author="
      ++ pyReprStr b.author ++ ", year=").data, (")" : String).data, ?_⟩
  simp [pyReprBook, String.data_append]

lemma occ_book_pyStrBookList {info : List BookInfo} {b : BookInfo}
    (hb : b ∈ info) :
    (pyReprBook b).data <:+: (pyStrBookList info).data := by
  have h := occ_pyJoin_of_mem ", " (info.map pyReprBook) (pyReprBook b)
    (List.mem_map_of_mem pyReprBook hb)
  show (pyReprBook b).data <:+: ("[" ++ pyJoin ", " (info.map pyReprBook)
    ++ "]").data
  rw [String.data_append, String.data_append]
  exact occExtendRight (occExtendLeft h)

lemma occ_braceSub {s t : String} (h : s.data <:+: t.data) :
    (braceSub s).data <:+: (braceSub t).data := by
  rw [braceSub_data, braceSub_data]
  exact h.map braceMap

lemma book_info_data (t : BookInfoTool) :
    (Assistant.book_info t).data
      = SEND_TO.data ++ (assistantMidText.data
        ++ ((braceSub (pyStrBookList t.info)).data ++ assistantTailText.data)) := by
  show (SEND_TO ++ assistantMidText ++ braceSub (pyStrBookList t.info)
    ++ assistantTailText).data = _
  simp [String.data_append]

lemma noBraces_book_info (t : BookInfoTool) :
    noBraces (Assistant.book_info t) := by
  show noBraces (SEND_TO ++ assistantMidText ++ braceSub (pyStrBookList t.info)
    ++ assistantTailText)
  exact noBraces_append (noBraces_append (noBraces_append (by decide) (by decide))
    (noBraces_braceSub _)) (by decide)

lemma occ_book_info {t : BookInfoTool} {s : String}
    (h : s.data <:+: (braceSub (pyStrBookList t.info)).data) :
    occursIn s (Assistant.book_info t) := by
  rw [occursIn, book_info_data]
  exact occExtendLeft (occExtendLeft (occExtendRight h))

lemma not_occ_of_brace {t : BookInfoTool} {s : String}
    (hb : '\x7b' ∈ s.data ∨ '\x7d' ∈ s.data) :
    ¬ occursIn s (Assistant.book_info t) := by
  intro hocc
  have hsub := List.IsInfix.subset hocc
  rcases hb with hb | hb
  · exact (noBraces_book_info t).1 (hsub hb)
  · exact (noBraces_book_info t).2 (hsub hb)

lemma digitChar_ne_lbrace (n : Nat) : Nat.digitChar n ≠ '\x7b' := by
  rcases Nat.lt_or_ge n 16 with h | h
  · interval_cases n <;> decide
  · unfold Nat.digitChar
    repeat rw [if_neg (by omega)]
    decide

lemma digitChar_ne_rbrace (n : Nat) : Nat.digitChar n ≠ '\x7d' := by
  rcases Nat.lt_or_ge n 16 with h | h
  · interval_cases n <;> decide
  · unfold Nat.digitChar
    repeat rw [if_neg (by omega)]
    decide

lemma toDigitsCore_no_brace :
    ∀ (fuel n : Nat) (acc : List Char),
      (∀ c ∈ acc, c ≠ '\x7b' ∧ c ≠ '\x7d') →
      ∀ c ∈ Nat.toDigitsCore 10 fuel n acc, c ≠ '\x7b' ∧ c ≠ '\x7d' := by
  intro fuel
  induction fuel with
  | zero => intro n acc hacc c hc; exact hacc c hc
  | succ fuel ih =>
    intro n acc hacc c hc
    rw [Nat.toDigitsCore] at hc
    have hstep : ∀ d ∈ (n % 10).digitChar :: acc, d ≠ '\x7b' ∧ d ≠ '\x7d' := by
      intro d hd
      rcases List.mem_cons.1 hd with rfl | hd'
      · exact ⟨digitChar_ne_lbrace _, digitChar_ne_rbrace _⟩
      · exact hacc d hd'
    by_cases hz : n / 10 = 0
    · rw [if_pos hz] at hc
      exact hstep c hc
    · rw [if_neg hz] at hc
      exact ih (n / 10) _ hstep c hc

lemma noBraces_nat_repr (n : Nat) : noBraces (Nat.repr n) := by
  have h := toDigitsCore_no_brace (n + 1) n [] (by intro c hc; cases hc)
  constructor <;>
    · intro hmem
      have := h _ hmem
      simp at this

lemma noBraces_int_repr (i : Int) : noBraces (toString i) := by
  show noBraces (Int.repr i)
  cases i with
  | ofNat m => exact noBraces_nat_repr m
  | negSucc m =>
    show noBraces ("-" ++ Nat.repr (m + 1))
    exact noBraces_append (by decide) (noBraces_nat_repr (m + 1))

lemma flatten_of_singletons {f : Char → List Char} :
    ∀ {l : List Char}, (∀ c ∈ l, f c = [c]) → (l.map f).flatten = l := by
  intro l
  induction l with
  | nil => intro _; rfl
  | cons c cs ih =>
    intro h
    rw [List.map_cons, List.flatten_cons, h c (List.mem_cons_self c cs),
      ih fun d hd => h d (List.mem_cons_of_mem c hd)]
    rfl

lemma pyEscChar_plain {q c : Char} (hq : q = '\'' ∨ q = '"')
    (hc : plainChar c) : pyEscChar q c = [c] := by
  have hp := hc
  rw [plainChar] at hp
  simp only [Bool.not_eq_true', Bool.or_eq_false_iff, decide_eq_false_iff_not] at hp
  obtain ⟨⟨⟨⟨⟨⟨⟨h1, h2⟩, h3⟩, h4⟩, h5⟩, h6⟩, -⟩, -⟩ := hp
  have hcq : c ≠ q := by rcases hq with rfl | rfl <;> assumption
  simp [pyEscChar, h1, hcq, h4, h5, h6]

lemma pyQuoteChar_cases (s : String) :
    pyQuoteChar s = '\'' ∨ pyQuoteChar s = '"' := by
  rw [pyQuoteChar]
  split
  · exact Or.inr rfl
  · exact Or.inl rfl

lemma pyReprStr_plain_data {s : String} (h : ∀ c ∈ s.data, plainChar c) :
    (pyReprStr s).data = pyQuoteChar s :: s.data ++ [pyQuoteChar s] := by
  show pyQuoteChar s :: (s.data.map (pyEscChar (pyQuoteChar s))).flatten
    ++ [pyQuoteChar s] = _
  rw [flatten_of_singletons fun c hc =>
    pyEscChar_plain (pyQuoteChar_cases s) (h c hc)]

lemma occ_braceSub_field {t : BookInfoTool} {b : BookInfo} (hb : b ∈ t.info)
    {s : String} (h : s.data <:+: (pyReprBook b).data) :
    occursIn (braceSub s) (Assistant.book_info t) :=
  occ_book_info ((occ_braceSub h).trans
    (occ_braceSub (occ_book_pyStrBookList hb)))

lemma occ_year_book_info {t : BookInfoTool} {b : BookInfo} (hb : b ∈ t.info) :
    occursIn (toString b.year) (Assistant.book_info t) := by
  have h := occ_braceSub_field hb (occ_year_pyReprBook b)
  rwa [occursIn, braceSub_data_id (noBraces_int_repr b.year)] at h

lemma noBraces_pyReprStr_plain {s : String}
    (h : ∀ c ∈ s.data, plainChar c) : noBraces (pyReprStr s) := by
  have hq := pyQuoteChar_cases s
  rw [noBraces, pyReprStr_plain_data h]
  constructor <;>
    · intro hmem
      rcases List.mem_cons.1 hmem with hq' | hmem'
      · rcases hq with h' | h' <;> rw [h'] at hq' <;> exact absurd hq' (by decide)
      · rcases List.mem_append.1 hmem' with hs | hq'
        · exact absurd (h _ hs) (by decide)
        · rw [List.mem_singleton] at hq'
          rcases hq with h' | h' <;> rw [h'] at hq' <;> exact absurd hq' (by decide)

lemma occ_plain_verbatim {s : String} (h : ∀ c ∈ s.data, plainChar c) :
    s.data <:+: (braceSub (pyReprStr s)).data := by
  rw [braceSub_data_id (noBraces_pyReprStr_plain h), pyReprStr_plain_data h]
  exact ⟨[pyQuoteChar s], [pyQuoteChar s], by simp⟩

lemma begins_book_info (t : BookInfoTool) :
    beginsWith (SEND_TO ++ "LLM") (Assistant.book_info t) := by
  rw [beginsWith, book_info_data, String.data_append]
  refine prefExtendLeft SEND_TO.data (prefExtendRight _ ?_)
  decide

set_option maxRecDepth 40000

/-- C1 counterexample: the text block produced by the info-delivery handler
`Assistant.book_info` on the example payload is not followed by terminal
signaling markers: neither `DONE` nor `PASS` occurs anywhere in it, so the
claim as stated fails at this input. -/
theorem book_info_no_terminal_markers :
    ¬ occursIn DONE (Assistant.book_info exampleBookInfoTool)
    ∧ ¬ occursIn PASS (Assistant.book_info exampleBookInfoTool) := by
  decide

/-- C1 (amended): for every payload, `Assistant.book_info` yields a single
text block that begins with the routing markers (the `SEND_TO` marker then
the `LLM` addressee), contains no curly-brace character, and contains, for
every record of the payload, the brace-substituted quoted rendering of the
title and author values and the decimal year value (a title of plain
characters appears verbatim).  The terminal signaling markers are not
appended to this block: they are the output of the separate tool handler
`BookInfoTool.handle`. -/
theorem book_info_text_block (t : BookInfoTool) :
    beginsWith (SEND_TO ++ "LLM") (Assistant.book_info t)
    ∧ noBraces (Assistant.book_info t)
    ∧ BookInfoTool.handle t = DONE ++ " " ++ PASS
    ∧ ∀ b ∈ t.info,
        occursIn (braceSub (pyReprStr b.title)) (Assistant.book_info t)
        ∧ occursIn (braceSub (pyReprStr b.author)) (Assistant.book_info t)
        ∧ occursIn (toString b.year) (Assistant.book_info t)
        ∧ ((∀ c ∈ b.title.data, plainChar c) →
            occursIn b.title (Assistant.book_info t)) := by
  refine ⟨begins_book_info t, noBraces_book_info t, rfl, fun b hb => ?_⟩
  refine ⟨occ_braceSub_field hb (occ_title_pyReprBook b),
    occ_braceSub_field hb (occ_author_pyReprBook b),
    occ_year_book_info hb, fun hplain => ?_⟩
  exact (occ_plain_verbatim hplain).trans
    (occ_braceSub_field hb (occ_title_pyReprBook b))

/-- C1 witness: the amended theorem, instantiated at the example payload and
its first record, puts the title "The Hobbit" verbatim in the text block. -/
theorem book_info_text_block_witness :
    occursIn "The Hobbit" (Assistant.book_info exampleBookInfoTool) :=
  ((book_info_text_block exampleBookInfoTool).2.2.2
    ⟨"The Hobbit", "J.R.R. Tolkien", 1937⟩ (by decide)).2.2.2 (by decide)

/-- C2 counterexample: no single handler both restates the payload and
carries the two sentinel markers in its returned string: the tool handler's
output contains none of the record contents ("The Hobbit" does not occur in
it), while the restating handler's text contains no `DONE` marker. -/
theorem info_delivery_not_single_handler :
    ¬ occursIn "The Hobbit" (BookInfoTool.handle exampleBookInfoTool)
    ∧ ¬ occursIn DONE (Assistant.book_info exampleBookInfoTool) := by
  decide

/-- C2 (amended): the signaling and the restatement are split across two
handlers: for every validated payload the tool's `handle` returns exactly
the two sentinel markers, `DONE` (terminate the current task) then `PASS`
(forward the payload unchanged to the parent, rather than treat it as a
further tool invocation), while the parent-side handler
`Assistant.book_info` produces the human-readable restatement, containing
the brace-substituted rendering of every record of the payload. -/
theorem handle_signals_book_info_restates (t : BookInfoTool) :
    BookInfoTool.handle t = DONE ++ " " ++ PASS
    ∧ ∀ b ∈ t.info,
        occursIn (braceSub (pyReprBook b)) (Assistant.book_info t) :=
  ⟨rfl, fun _ hb => occ_book_info (occ_braceSub (occ_book_pyStrBookList hb))⟩

/-- C2 witness: the amended theorem instantiated at the example payload and
its first record. -/
theorem handle_signals_witness :
    occursIn (braceSub (pyReprBook ⟨"The Hobbit", "J.R.R. Tolkien", 1937⟩))
      (Assistant.book_info exampleBookInfoTool) :=
  (handle_signals_book_info_restates exampleBookInfoTool).2
    ⟨"The Hobbit", "J.R.R. Tolkien", 1937⟩ (by decide)

/-- C3: the fallback nudge handler returns a non-empty corrective string iff
the input is flagged as a failed tool-invocation attempt (the boolean result
of the external `has_tool_message_attempt` check), and returns `none`
("no nudge") otherwise. -/
theorem fallback_nudge_iff (σ : Type) (st : σ) (flagged : Bool) :
    ((Extractor.handle_message_fallback σ st flagged).1 ≠ none ↔ flagged = true)
    ∧ (flagged = true →
        (Extractor.handle_message_fallback σ st flagged).1 = some nudgeText)
    ∧ (flagged = false →
        (Extractor.handle_message_fallback σ st flagged).1 = none)
    ∧ nudgeText ≠ "" := by
  cases flagged
  · exact ⟨by simp [Extractor.handle_message_fallback], by simp,
      fun _ => rfl, by decide⟩
  · exact ⟨by simp [Extractor.handle_message_fallback], fun _ => rfl,
      by simp, by decide⟩

/-- C3 witness: a flagged input yields the (non-empty) nudge string. -/
theorem fallback_nudge_witness :
    (Extractor.handle_message_fallback Unit () true).1 = some nudgeText :=
  (fallback_nudge_iff Unit () true).2.1 rfl

/-- C4: the info-delivery handler is deterministic and idempotent: two
invocations of `Assistant.book_info` on the same payload produce
byte-identical output text. -/
theorem book_info_deterministic (t₁ t₂ : BookInfoTool) (h : t₁ = t₂) :
    Assistant.book_info t₁ = Assistant.book_info t₂ := by
  rw [h]

/-- C4 witness: the theorem applied twice to the example payload. -/
theorem book_info_deterministic_witness :
    Assistant.book_info exampleBookInfoTool
      = Assistant.book_info exampleBookInfoTool :=
  book_info_deterministic exampleBookInfoTool exampleBookInfoTool rfl

/-- C5: the brace substitution applies to every occurrence of a curly brace
in the string form of the record list, including braces inside the title and
author field values: the output never contains a curly brace, a field value
containing a brace is not reproduced verbatim, and its brace-substituted
rendering (braces turned into square brackets) does occur. -/
theorem brace_substitution_in_fields (t : BookInfoTool) (b : BookInfo)
    (hb : b ∈ t.info) :
    noBraces (Assistant.book_info t)
    ∧ occursIn (braceSub (pyReprStr b.title)) (Assistant.book_info t)
    ∧ occursIn (braceSub (pyReprStr b.author)) (Assistant.book_info t)
    ∧ (('\x7b' ∈ b.title.data ∨ '\x7d' ∈ b.title.data) →
        ¬ occursIn b.title (Assistant.book_info t))
    ∧ (('\x7b' ∈ b.author.data ∨ '\x7d' ∈ b.author.data) →
        ¬ occursIn b.author (Assistant.book_info t)) :=
  ⟨noBraces_book_info t,
    occ_braceSub_field hb (occ_title_pyReprBook b),
    occ_braceSub_field hb (occ_author_pyReprBook b),
    fun hbr => not_occ_of_brace hbr,
    fun hbr => not_occ_of_brace hbr⟩

/-- C5 witness: a title containing curly braces is not reproduced verbatim
in the output of `Assistant.book_info`. -/
theorem brace_substitution_witness :
    ¬ occursIn "The \x7bHobbit\x7d" (Assistant.book_info braceExampleTool) :=
  (brace_substitution_in_fields braceExampleTool
    ⟨"The \x7bHobbit\x7d", "J.R.R. \x7bTolkien\x7d", 1937⟩
    (by decide)).2.2.2.1 (by decide)

/-- C6: the tool's handle method is a constant function: every payload,
whatever its records, yields the same string, the `DONE` marker, a space and
the `PASS` marker, with no restatement of any record's contents. -/
theorem handle_constant :
    (∀ t : BookInfoTool, BookInfoTool.handle t = DONE ++ " " ++ PASS)
    ∧ ∀ t₁ t₂ : BookInfoTool,
        BookInfoTool.handle t₁ = BookInfoTool.handle t₂ :=
  ⟨fun _ => rfl, fun _ _ => rfl⟩

/-- C7: the CLI entry point's three options default to the empty model
override, debug off and cache-disable off; the global settings take
`cache = not no_cache` (so caching is enabled by default), and an empty
model override selects the built-in default model. -/
theorem cli_options_defaults :
    ({} : ChatOptions) = ⟨"", false, false⟩
    ∧ (∀ o : ChatOptions, chatSettings o = ⟨o.debug, !o.no_cache⟩)
    ∧ chatSettings {} = ⟨false, true⟩
    ∧ (∀ o : ChatOptions, o.model = "" → chatModel o = GPT4_TURBO)
    ∧ chatModel {} = GPT4_TURBO := by
  refine ⟨rfl, fun o => rfl, rfl, fun o h => ?_, rfl⟩
  rw [chatModel, if_pos h]

/-- C7 witness: an explicit empty model override selects the default model
even with the toggles flipped on. -/
theorem cli_options_witness :
    chatModel ⟨"", true, true⟩ = GPT4_TURBO :=
  cli_options_defaults.2.2.2.1 ⟨"", true, true⟩ rfl

/-- C8: the script's task wiring is the parent-to-child chain Assistant →
Extractor → DocAgent, and the blocking run entry point is invoked on the
root Assistant task. -/
theorem task_chain_and_run :
    parentOf TaskName.Extractor = some TaskName.Assistant
    ∧ parentOf TaskName.DocAgent = some TaskName.Extractor
    ∧ parentOf TaskName.Assistant = none
    ∧ rootTask = TaskName.Assistant
    ∧ usesBlockingRun = true :=
  ⟨rfl, rfl, rfl, rfl, rfl⟩

/-- C9: the vector-store configuration passed to the document agent replaces
the collection on every run (`replace_collection` is true) at the fixed
local storage path. -/
theorem vecdb_replace_config :
    bookVecdbConfig.replace_collection = true
    ∧ bookVecdbConfig.storage_path = ".lancedb/data/"
    ∧ bookVecdbConfig.collection_name = "book_info" :=
  ⟨rfl, rfl, rfl⟩

/-- C10: the fallback nudge handler is pure and frame-preserving: it returns
the agent state unchanged, and its textual result depends only on the
tool-attempt classification of the input, not on the state. -/
theorem fallback_frame_pure (σ : Type) (st₁ st₂ : σ) (flagged : Bool) :
    (Extractor.handle_message_fallback σ st₁ flagged).2 = st₁
    ∧ (Extractor.handle_message_fallback σ st₁ flagged).1
      = (Extractor.handle_message_fallback σ st₂ flagged).1 :=
  ⟨rfl, rfl⟩

end ExtractThenChat
